import Mathlib

/-!
# Verification of the Rube-Goldberg-Machine core (AnimationSystem / CollisionSystem / RGMController)

Shallow embedding of the simulation core of the repository.  Conventions:

* JavaScript numbers are embedded as `ℚ`.  Every numeric literal of the source
  is embedded as the rational it denotes (`9.8 ↦ 49/5`, `1.5 ↦ 3/2`, `4.5 ↦ 9/2`,
  `0.6 ↦ 3/5`, `1.7 ↦ 17/10`, `3.6 ↦ 18/5`); the constant `Math.PI` is embedded
  by the exact value of the IEEE-754 double it names,
  `884279719003555 / 2^48` (`piQ` below).  `Math.sin` is kept abstract as a
  function parameter, and the along-ramp acceleration vector computed once in
  the `AnimationSystem` constructor from `Math.cos`/`Math.sin` is likewise kept
  as a parameter, since no verified property depends on their numeric values.
* `THREE.Vector3` is embedded as `V3` with the `addScaledVector`/`set`/`copy`
  operations actually used by the core.
* The world-space axis-aligned bounding-box tests of `CollisionSystem` read
  only the out-of-scope mesh layer (mesh world matrices and geometry bounds),
  never the simulation state; their per-frame boolean outcomes are therefore
  supplied as an `Overlaps` oracle record.
* Event payloads in the source are live references to the participating
  objects, but every emitter passes fixed roles (`PENDULUM_HIT_BALL1` always
  carries `ball1`, `BALL1_HIT_FIRST_DOMINO` always carries `ball1` and
  `dominos[0]`, `DOMINO_HIT_NEXT` always carries the pair
  `dominos[i], dominos[i+1]`, `DOMINO_HIT_BALL2`/`PENDULUM_HIT_BALL2` carry
  `ball2`), so events are embedded as a closed inductive type where
  `DOMINO_HIT_NEXT` records the source index `i`.

The repository snapshot contains two revisions of the controller.  The file
`src/A4/modules/RGMController.js` is an earlier revision (states
`IDLE … DONE`, no `BALL1_FALLING`, handlers for `BALL1_HIT_FIRST_DOMINO`,
`DOMINO_HIT_NEXT` and a `PENDULUM_HIT_BALL2` event that nothing emits); it is
embedded verbatim in the `RGMController` namespace.  The final controller —
the one `AnimationSystem.js` (which reads `RGMState.BALL1_FALLING`),
`CollisionSystem.js` (which emits `PENDULUM_HIT_BALL1`, `BALL1_HIT_RAMP`,
`DOMINO_HIT_BALL2`) and `MainApp.js` (which switches on `BALL1_FALLING` and
`PENDULUM_SWINGING`) are written against — is missing from the snapshot; it is
modelled from the specification's §4.3 transition table in the `Sequencer`
namespace, with each modelled definition marked `Modelled from the spec:`.
-/

/-- Embedding of `THREE.Vector3` restricted to the fields the core uses. -/
structure V3 where
  x : ℚ
  y : ℚ
  z : ℚ
deriving DecidableEq, Repr

/-- Value written by `v.set(0, 0, 0)`. -/
def V3.zero : V3 := ⟨0, 0, 0⟩

/-- Embedding of `THREE.Vector3.addScaledVector(a, dt)`: componentwise `v + a * dt`. -/
def V3.addScaled (v a : V3) (dt : ℚ) : V3 :=
  ⟨v.x + a.x * dt, v.y + a.y * dt, v.z + a.z * dt⟩

/-- Logical ball state (`rgm.ball1` / `rgm.ball2` built in `MainApp.buildRGMObjects`). -/
structure Ball where
  position : V3
  velocity : V3
  radius : ℚ
  active : Bool
deriving DecidableEq, Repr

/-- Logical pendulum state (`rgm.pendulum`). -/
structure Pendulum where
  length : ℚ
  angle : ℚ
  angularVelocity : ℚ
  active : Bool
deriving DecidableEq, Repr

/-- Logical domino state (one entry of `rgm.dominos`). -/
structure Domino where
  angle : ℚ
  angularVelocity : ℚ
  fallen : Bool
deriving DecidableEq, Repr

/-- Controller states: the union of the `RGMState` enumeration of
`src/A4/modules/RGMController.js` (`IDLE`, …, `DONE`) and the
`BALL1_FALLING` state referenced by `AnimationSystem.js` and `MainApp.js`
and listed in the specification's state set. -/
inductive RGMState where
  | IDLE
  | PENDULUM_SWINGING
  | BALL1_ROLLING
  | BALL1_FALLING
  | DOMINOS_FALLING
  | BALL2_ROLLING
  | DONE
deriving DecidableEq, Repr

/-- The kinematic object store together with the controller's state field. -/
structure Sys where
  ball1 : Ball
  ball2 : Ball
  dominos : List Domino
  pendulum : Pendulum
  state : RGMState
deriving DecidableEq, Repr

/-- Collision events.  The payload of `DOMINO_HIT_NEXT` is the index `i` of
the source domino (`from = dominos[i]`, `to = dominos[i+1]` as emitted by
`CollisionSystem._checkDominoChain`); the other payloads are fixed roles (see
the file header).  `PENDULUM_HIT_BALL2` is the event name handled by the
earlier controller revision; the present `CollisionSystem` never emits it. -/
inductive Event where
  | PENDULUM_HIT_BALL1
  | BALL1_HIT_RAMP
  | BALL1_HIT_FIRST_DOMINO
  | DOMINO_HIT_NEXT (i : Nat)
  | DOMINO_HIT_BALL2
  | PENDULUM_HIT_BALL2
deriving DecidableEq, Repr

/-- Replace the `i`-th element of a list by `f` of it (out of range: no-op);
used to embed in-place mutation of `rgm.dominos[i]`. -/
def modifyAt (i : Nat) (f : α → α) : List α → List α
  | [] => []
  | a :: as =>
    match i with
    | 0 => f a :: as
    | j + 1 => a :: modifyAt j f as

theorem getElem?_modifyAt_self (f : α → α) :
    ∀ (l : List α) (i : Nat), (modifyAt i f l)[i]? = (l[i]?).map f := by
  intro l
  induction l with
  | nil => intro i; cases i <;> rfl
  | cons a as ih =>
    intro i
    cases i with
    | zero => simp [modifyAt]
    | succ j => simpa [modifyAt] using ih j

namespace RGMController

/-- Source `RGMController._startBall1` of `src/A4/modules/RGMController.js`:
state := BALL1_ROLLING, ball1.active := true, ball1.velocity := (2, 0, 0). -/
def _startBall1 (s : Sys) : Sys :=
  { s with
    state := .BALL1_ROLLING
    ball1 := { s.ball1 with active := true, velocity := ⟨2, 0, 0⟩ } }

/-- Source `RGMController._onBall1HitFirstDomino` (payload: `ball = ball1`,
`domino = dominos[0]`): guarded on `state === BALL1_ROLLING`; deactivates
ball1, zeroes its velocity, sets `dominos[0].angularVelocity = 1.5`,
`dominos[0].fallen = true`, state := DOMINOS_FALLING. -/
def _onBall1HitFirstDomino (s : Sys) : Sys :=
  if s.state ≠ .BALL1_ROLLING then s
  else
    { s with
      ball1 := { s.ball1 with active := false, velocity := V3.zero }
      dominos := modifyAt 0
        (fun d => { d with angularVelocity := 3/2, fallen := true }) s.dominos
      state := .DOMINOS_FALLING }

/-- Source `RGMController._onDominoHitNext` (payload: `from = dominos[i]`,
`to = dominos[i+1]`): guarded on `state === DOMINOS_FALLING`; sets
`to.angularVelocity = 1.5`, `to.fallen = true`. -/
def _onDominoHitNext (i : Nat) (s : Sys) : Sys :=
  if s.state ≠ .DOMINOS_FALLING then s
  else
    { s with
      dominos := modifyAt (i + 1)
        (fun d => { d with angularVelocity := 3/2, fallen := true }) s.dominos }

/-- Source `RGMController._onPendulumHitBall2` (payload: `ball2`): guarded on
`state === PENDULUM_SWINGING || state === DOMINOS_FALLING`; activates ball2
with velocity (3, 0, 0), state := BALL2_ROLLING. -/
def _onPendulumHitBall2 (s : Sys) : Sys :=
  if s.state ≠ .PENDULUM_SWINGING ∧ s.state ≠ .DOMINOS_FALLING then s
  else
    { s with
      ball2 := { s.ball2 with active := true, velocity := ⟨3, 0, 0⟩ }
      state := .BALL2_ROLLING }

/-- The `switch (ev.type)` of `RGMController.update`: only the three listed
event kinds have cases; every other event falls through unchanged. -/
def handleEvent (s : Sys) (ev : Event) : Sys :=
  match ev with
  | .BALL1_HIT_FIRST_DOMINO => _onBall1HitFirstDomino s
  | .DOMINO_HIT_NEXT i => _onDominoHitNext i s
  | .PENDULUM_HIT_BALL2 => _onPendulumHitBall2 s
  | _ => s

/-- Source `RGMController.update(dt, collisionEvents)`: if the state is `IDLE`,
auto-start (`_startBall1`); then fold the handlers over the event queue.
`dt` is received but unused by the source method. -/
def update (dt : ℚ) (collisionEvents : List Event) (s : Sys) : Sys :=
  let s1 := if s.state = .IDLE then _startBall1 s else s
  collisionEvents.foldl handleEvent s1

end RGMController

namespace Sequencer

/-- Modelled from the spec: the guard column of the §4.3 transition table of
the final `RGMController`, which is missing from the repository snapshot
(only its callers — `MainApp.js`, `AnimationSystem.js`, `CollisionSystem.js` —
and an earlier revision are present).  All guards are strict equality on the
current state; `PENDULUM_HIT_BALL2` is not in the spec's event enumeration,
so no handler exists for it. -/
def guard (ev : Event) (st : RGMState) : Bool :=
  match ev with
  | .PENDULUM_HIT_BALL1 => decide (st = .PENDULUM_SWINGING)
  | .BALL1_HIT_RAMP => decide (st = .BALL1_ROLLING)
  | .BALL1_HIT_FIRST_DOMINO => decide (st = .BALL1_FALLING)
  | .DOMINO_HIT_NEXT _ => decide (st = .DOMINOS_FALLING)
  | .DOMINO_HIT_BALL2 => decide (st = .DOMINOS_FALLING)
  | .PENDULUM_HIT_BALL2 => false

/-- Modelled from the spec: the action and next-state columns of the §4.3
transition table of the final `RGMController` (missing from the snapshot).
The spec fixes only the signs of the fixed velocities ("fixed rightward
velocity", "fixed negative angular velocity"); the magnitudes `2`, `3` and
`3/2` are taken from the earlier controller revision in the snapshot. -/
def applyEvent (s : Sys) (ev : Event) : Sys :=
  match ev with
  | .PENDULUM_HIT_BALL1 =>
    { s with
      pendulum := { s.pendulum with angularVelocity := 0 }
      ball1 := { s.ball1 with active := true, velocity := ⟨2, 0, 0⟩ }
      state := .BALL1_ROLLING }
  | .BALL1_HIT_RAMP =>
    { s with
      ball1 := { s.ball1 with velocity := V3.zero }
      state := .BALL1_FALLING }
  | .BALL1_HIT_FIRST_DOMINO =>
    { s with
      ball1 := { s.ball1 with velocity := V3.zero }
      dominos := modifyAt 0
        (fun d => { d with fallen := true, angularVelocity := -(3/2) }) s.dominos
      state := .DOMINOS_FALLING }
  | .DOMINO_HIT_NEXT i =>
    match s.dominos.get? i, s.dominos.get? (i + 1) with
    | some dfrom, some dto =>
      if dto.fallen then s
      else
        { s with
          dominos := modifyAt (i + 1)
            (fun d => { d with fallen := true,
                               angularVelocity := dfrom.angularVelocity })
            s.dominos }
    | _, _ => s
  | .DOMINO_HIT_BALL2 =>
    { s with
      ball2 := { s.ball2 with active := true, velocity := ⟨3, 0, 0⟩ }
      state := .BALL2_ROLLING }
  | .PENDULUM_HIT_BALL2 => s

/-- Modelled from the spec: consuming one event — the guarded dispatch of the
final `RGMController.update`; an event whose guard fails is silently
dropped. -/
def handle (s : Sys) (ev : Event) : Sys :=
  if guard ev s.state then applyEvent s ev else s

/-- Modelled from the spec: the final `RGMController.update(dt, events)`,
folding the guarded handlers over the frame's event queue (`dt` unused by the
event dispatch). -/
def update (dt : ℚ) (collisionEvents : List Event) (s : Sys) : Sys :=
  collisionEvents.foldl handle s

/-- Modelled from the spec: the reset operation of the final `RGMController`
(missing from the snapshot): "zero all velocities, deactivate both balls,
clear all domino `fallen`/angle/angularVelocity, set pendulum to a fixed
starting angle with `active = true`, and set state to the initial state"
(initial state `PENDULUM_SWINGING`).  The value of the fixed starting angle
and the anchor positions copied from the visual meshes are not given by the
spec and are taken as parameters. -/
def reset (startAngle : ℚ) (anchor1 anchor2 : V3) (s : Sys) : Sys :=
  { ball1 := { s.ball1 with position := anchor1, velocity := V3.zero, active := false }
    ball2 := { s.ball2 with position := anchor2, velocity := V3.zero, active := false }
    dominos := s.dominos.map
      (fun _ => { angle := 0, angularVelocity := 0, fallen := false })
    pendulum := { s.pendulum with
                  angle := startAngle, angularVelocity := 0, active := true }
    state := .PENDULUM_SWINGING }

end Sequencer

namespace AnimationSystem

/-- Constant `this.gravity = new THREE.Vector3(0, -9.8, 0)` of the
`AnimationSystem` constructor. -/
def gravity : V3 := ⟨0, -(49/5), 0⟩

/-- Exact value of the IEEE-754 double `Math.PI` (`884279719003555 / 2^48`). -/
def piQ : ℚ := 884279719003555 / 281474976710656

/-- Source `AnimationSystem._updateDominos`: `lastTarget = -Math.PI / 2`
(final domino flat on the ground). -/
def lastTarget : ℚ := -piQ / 2

/-- Source `AnimationSystem._updateDominos`: `midTarget = -(3.6*Math.PI) / 9`
(all interior dominoes stop here). -/
def midTarget : ℚ := -(18/5 * piQ) / 9

/-- Per-index terminal target of `_updateDominos`:
`(idx === lastIndex) ? lastTarget : midTarget`. -/
def dominoTarget (lastIndex idx : Nat) : ℚ :=
  if idx = lastIndex then lastTarget else midTarget

/-- Source `AnimationSystem._updateBall(ball, dt, state)`.  Inactive balls are
skipped.  The velocity rule is selected from the controller state alone:
`BALL1_ROLLING` leaves velocity unchanged (empty branch in the source),
`BALL1_FALLING` adds the precomputed along-ramp acceleration (`this.accel`,
passed here as the parameter `accel`), `BALL2_ROLLING` adds gravity once
`position.x > 4.5`; then `position += velocity * dt` with the updated
velocity. -/
def _updateBall (accel : V3) (dt : ℚ) (state : RGMState) (ball : Ball) : Ball :=
  if !ball.active then ball
  else
    let v :=
      if state = .BALL1_ROLLING then ball.velocity
      else if state = .BALL1_FALLING then ball.velocity.addScaled accel dt
      else if state = .BALL2_ROLLING then
        if ball.position.x > 9/2 then ball.velocity.addScaled gravity dt
        else ball.velocity
      else ball.velocity
    { ball with velocity := v, position := ball.position.addScaled v dt }

/-- Source `AnimationSystem._updatePendulum(dt, state)`: simple pendulum dynamics,
`acc = -(g/L) * sin(angle)` with `Math.sin` abstracted as `sinFn`. -/
def _updatePendulum (sinFn : ℚ → ℚ) (dt : ℚ) (p : Pendulum) : Pendulum :=
  if !p.active then p
  else
    let acc := -(49/5 / p.length) * sinFn p.angle
    let w := p.angularVelocity + acc * 1 * dt
    { p with angularVelocity := w, angle := p.angle + w * 1 * dt }

/-- One domino of `AnimationSystem._updateDominos`: non-fallen dominoes are
skipped; otherwise `angle += angularVelocity * dt`, and when the angle passes
(is more negative than) the per-index target, it is clamped to the target and
the angular velocity is zeroed. -/
def _updateDomino (lastIndex idx : Nat) (dt : ℚ) (d : Domino) : Domino :=
  if !d.fallen then d
  else
    let a := d.angle + d.angularVelocity * dt
    let target := dominoTarget lastIndex idx
    if a < target then { d with angle := target, angularVelocity := 0 }
    else { d with angle := a }

/-- Source `AnimationSystem._updateDominos(dt)`: apply `_updateDomino` to each
domino with `lastIndex = dominos.length - 1`. -/
def _updateDominos (dt : ℚ) (ds : List Domino) : List Domino :=
  ds.mapIdx (fun idx d => _updateDomino (ds.length - 1) idx dt d)

/-- Source `AnimationSystem.update(dt, state)`: update both balls with the same
rule, then the pendulum, then the dominoes.  The trailing `_syncAllMeshes`
step only mirrors logical state onto the out-of-scope visual meshes and is
omitted. -/
def update (accel : V3) (sinFn : ℚ → ℚ) (dt : ℚ) (state : RGMState) (s : Sys) : Sys :=
  { s with
    ball1 := _updateBall accel dt state s.ball1
    ball2 := _updateBall accel dt state s.ball2
    pendulum := _updatePendulum sinFn dt s.pendulum
    dominos := _updateDominos dt s.dominos }

end AnimationSystem

namespace CollisionSystem

/-- Per-frame outcomes of the world-space bounding-box overlap tests of
`CollisionSystem` (`_ensureWorldBounds` + `Box3.intersectsBox`).  These read
only the out-of-scope mesh layer, never the simulation state; each field is
`true` iff the corresponding meshes and boxes were found and overlap. -/
structure Overlaps where
  bobBall1 : Bool
  ball1Ramp : Bool
  ball1Domino0 : Bool
deriving DecidableEq, Repr

/-- Source `CollisionSystem._checkPendulumHitsBall1`: emits `PENDULUM_HIT_BALL1`
when the pendulum bob's box overlaps ball1's box. -/
def _checkPendulumHitsBall1 (o : Overlaps) : List Event :=
  if o.bobBall1 then [.PENDULUM_HIT_BALL1] else []

/-- Source `CollisionSystem._checkBall1HitsRamp`: emits `BALL1_HIT_RAMP` when
ball1's box overlaps the ramp's box. -/
def _checkBall1HitsRamp (o : Overlaps) : List Event :=
  if o.ball1Ramp then [.BALL1_HIT_RAMP] else []

/-- Source `CollisionSystem._checkBall1HitsFirstDomino`: skipped when there is no
first domino or it has already fallen; otherwise emits
`BALL1_HIT_FIRST_DOMINO` on box overlap. -/
def _checkBall1HitsFirstDomino (o : Overlaps) (ds : List Domino) : List Event :=
  match ds.head? with
  | none => []
  | some d0 =>
    if d0.fallen then []
    else if o.ball1Domino0 then [.BALL1_HIT_FIRST_DOMINO] else []

/-- Threshold `1.7 * Math.PI / 9` of `_checkDominoChain`. -/
def chainThreshold : ℚ := 17/10 * AnimationSystem.piQ / 9

/-- Source `CollisionSystem._checkDominoChain`: for each adjacent pair with
`dominos[i].fallen`, `!dominos[i+1].fallen` and `|dominos[i].angle|` above
the threshold, emit `DOMINO_HIT_NEXT` linking the pair. -/
def _checkDominoChain (ds : List Domino) : List Event :=
  (List.range (ds.length - 1)).filterMap fun i =>
    match ds.get? i, ds.get? (i + 1) with
    | some d1, some d2 =>
      if d1.fallen ∧ ¬d2.fallen ∧ |d1.angle| > chainThreshold then
        some (.DOMINO_HIT_NEXT i)
      else none
    | _, _ => none

/-- Source `CollisionSystem._checkDominoHitsBall2`: when the last domino exists, has
fallen and its angle is below `-0.6`, emit `DOMINO_HIT_BALL2`. -/
def _checkDominoHitsBall2 (ds : List Domino) : List Event :=
  match ds.getLast? with
  | none => []
  | some dl =>
    if ¬dl.fallen then []
    else if dl.angle < -(3/5) then [.DOMINO_HIT_BALL2] else []

/-- Source `CollisionSystem.update(dt)`: clears the previous frame's event queue
(`this.events.length = 0`) and runs the five checks in order, which only read
the store and push events; the simulation state is returned unchanged
(the source checks write nothing but `this.events` and per-mesh bounding-box
caches of the out-of-scope mesh layer). -/
def update (prevEvents : List Event) (o : Overlaps) (s : Sys) : Sys × List Event :=
  let cleared : List Event := []
  (s, cleared
      ++ _checkPendulumHitsBall1 o
      ++ _checkBall1HitsRamp o
      ++ _checkBall1HitsFirstDomino o s.dominos
      ++ _checkDominoChain s.dominos
      ++ _checkDominoHitsBall2 s.dominos)

end CollisionSystem

/-- Concrete ball1 as built by `MainApp.buildRGMObjects` (position from the
`SceneGraph` phong mesh anchor, zero velocity, radius 0.3, active). -/
def sampleBall1 : Ball := ⟨⟨-13, 2, 0⟩, V3.zero, 3/10, true⟩

/-- Concrete ball2 as built by `MainApp.buildRGMObjects`. -/
def sampleBall2 : Ball := ⟨⟨6, 2, 0⟩, V3.zero, 7/20, false⟩

/-- Concrete upright domino. -/
def sampleDomino : Domino := ⟨0, 0, false⟩

/-- Concrete pendulum (length 3, at rest). -/
def samplePendulum : Pendulum := ⟨3, 0, 0, false⟩

/-- Concrete store with the ten dominoes of `SceneGraph._buildDominos`, in a
chosen controller state. -/
def sampleSys (st : RGMState) : Sys :=
  ⟨sampleBall1, sampleBall2, List.replicate 10 sampleDomino, samplePendulum, st⟩

/-- C1: consuming a `PENDULUM_HIT_BALL1` event while the Sequencer's state is
`PENDULUM_SWINGING` zeroes the pendulum's angular velocity, activates ball1
with the fixed rightward (positive-x) velocity `(2, 0, 0)`, and moves the
state to `BALL1_ROLLING`. -/
theorem pendulum_hit_ball1_transition (s : Sys)
    (h : s.state = .PENDULUM_SWINGING) :
    (Sequencer.handle s .PENDULUM_HIT_BALL1).pendulum.angularVelocity = 0 ∧
    (Sequencer.handle s .PENDULUM_HIT_BALL1).ball1.active = true ∧
    (Sequencer.handle s .PENDULUM_HIT_BALL1).ball1.velocity = ⟨2, 0, 0⟩ ∧
    (Sequencer.handle s .PENDULUM_HIT_BALL1).ball1.velocity.x > 0 ∧
    (Sequencer.handle s .PENDULUM_HIT_BALL1).state = .BALL1_ROLLING := by
  simp [Sequencer.handle, Sequencer.guard, Sequencer.applyEvent, h]

theorem pendulum_hit_ball1_transition_witness :
    (sampleSys .PENDULUM_SWINGING).state = .PENDULUM_SWINGING ∧
    ((Sequencer.handle (sampleSys .PENDULUM_SWINGING)
        .PENDULUM_HIT_BALL1).pendulum.angularVelocity = 0 ∧
     (Sequencer.handle (sampleSys .PENDULUM_SWINGING)
        .PENDULUM_HIT_BALL1).ball1.active = true ∧
     (Sequencer.handle (sampleSys .PENDULUM_SWINGING)
        .PENDULUM_HIT_BALL1).ball1.velocity = ⟨2, 0, 0⟩ ∧
     (Sequencer.handle (sampleSys .PENDULUM_SWINGING)
        .PENDULUM_HIT_BALL1).ball1.velocity.x > 0 ∧
     (Sequencer.handle (sampleSys .PENDULUM_SWINGING)
        .PENDULUM_HIT_BALL1).state = .BALL1_ROLLING) :=
  ⟨rfl, pendulum_hit_ball1_transition (sampleSys .PENDULUM_SWINGING) rfl⟩

/-- C2: consuming a `DOMINO_HIT_BALL2` event while the Sequencer's state is
`DOMINOS_FALLING` activates ball2 with the fixed rightward velocity
`(3, 0, 0)` and moves the state to `BALL2_ROLLING`. -/
theorem domino_hit_ball2_transition (s : Sys)
    (h : s.state = .DOMINOS_FALLING) :
    (Sequencer.handle s .DOMINO_HIT_BALL2).ball2.active = true ∧
    (Sequencer.handle s .DOMINO_HIT_BALL2).ball2.velocity = ⟨3, 0, 0⟩ ∧
    (Sequencer.handle s .DOMINO_HIT_BALL2).ball2.velocity.x > 0 ∧
    (Sequencer.handle s .DOMINO_HIT_BALL2).state = .BALL2_ROLLING := by
  simp [Sequencer.handle, Sequencer.guard, Sequencer.applyEvent, h]

theorem domino_hit_ball2_transition_witness :
    (sampleSys .DOMINOS_FALLING).state = .DOMINOS_FALLING ∧
    ((Sequencer.handle (sampleSys .DOMINOS_FALLING)
        .DOMINO_HIT_BALL2).ball2.active = true ∧
     (Sequencer.handle (sampleSys .DOMINOS_FALLING)
        .DOMINO_HIT_BALL2).ball2.velocity = ⟨3, 0, 0⟩ ∧
     (Sequencer.handle (sampleSys .DOMINOS_FALLING)
        .DOMINO_HIT_BALL2).ball2.velocity.x > 0 ∧
     (Sequencer.handle (sampleSys .DOMINOS_FALLING)
        .DOMINO_HIT_BALL2).state = .BALL2_ROLLING) :=
  ⟨rfl, domino_hit_ball2_transition (sampleSys .DOMINOS_FALLING) rfl⟩

/-- C3: consuming a `BALL1_HIT_FIRST_DOMINO` event while the Sequencer's
state is `BALL1_FALLING` zeroes ball1's velocity, marks the first domino
fallen with the fixed negative angular velocity `-3/2`, and moves the state
to `DOMINOS_FALLING`. -/
theorem ball1_hit_first_domino_transition (s : Sys) (d0 : Domino)
    (rest : List Domino) (h : s.state = .BALL1_FALLING)
    (hd : s.dominos = d0 :: rest) :
    (Sequencer.handle s .BALL1_HIT_FIRST_DOMINO).ball1.velocity = V3.zero ∧
    (Sequencer.handle s .BALL1_HIT_FIRST_DOMINO).dominos =
      { d0 with fallen := true, angularVelocity := -(3/2) } :: rest ∧
    (-(3/2) : ℚ) < 0 ∧
    (Sequencer.handle s .BALL1_HIT_FIRST_DOMINO).state = .DOMINOS_FALLING := by
  simp [Sequencer.handle, Sequencer.guard, Sequencer.applyEvent, h, hd, modifyAt]

theorem ball1_hit_first_domino_transition_witness :
    (sampleSys .BALL1_FALLING).state = .BALL1_FALLING ∧
    (sampleSys .BALL1_FALLING).dominos =
      sampleDomino :: List.replicate 9 sampleDomino ∧
    ((Sequencer.handle (sampleSys .BALL1_FALLING)
        .BALL1_HIT_FIRST_DOMINO).ball1.velocity = V3.zero ∧
     (Sequencer.handle (sampleSys .BALL1_FALLING)
        .BALL1_HIT_FIRST_DOMINO).dominos =
       { sampleDomino with fallen := true, angularVelocity := -(3/2) }
         :: List.replicate 9 sampleDomino ∧
     (-(3/2) : ℚ) < 0 ∧
     (Sequencer.handle (sampleSys .BALL1_FALLING)
        .BALL1_HIT_FIRST_DOMINO).state = .DOMINOS_FALLING) :=
  ⟨rfl, rfl,
    ball1_hit_first_domino_transition (sampleSys .BALL1_FALLING)
      sampleDomino (List.replicate 9 sampleDomino) rfl rfl⟩

/-- C4: after the Sequencer's reset, both balls have zero velocity and are
inactive, every domino has angle 0, angular velocity 0 and `fallen = false`,
the pendulum sits at the fixed starting angle with `active = true`, and the
state equals the initial state `PENDULUM_SWINGING`. -/
theorem sequencer_reset_initial_conditions (startAngle : ℚ)
    (anchor1 anchor2 : V3) (s : Sys) :
    (Sequencer.reset startAngle anchor1 anchor2 s).ball1.velocity = V3.zero ∧
    (Sequencer.reset startAngle anchor1 anchor2 s).ball1.active = false ∧
    (Sequencer.reset startAngle anchor1 anchor2 s).ball2.velocity = V3.zero ∧
    (Sequencer.reset startAngle anchor1 anchor2 s).ball2.active = false ∧
    (∀ d ∈ (Sequencer.reset startAngle anchor1 anchor2 s).dominos,
      d.angle = 0 ∧ d.angularVelocity = 0 ∧ d.fallen = false) ∧
    (Sequencer.reset startAngle anchor1 anchor2 s).pendulum.angle = startAngle ∧
    (Sequencer.reset startAngle anchor1 anchor2 s).pendulum.active = true ∧
    (Sequencer.reset startAngle anchor1 anchor2 s).state = .PENDULUM_SWINGING := by
  refine ⟨rfl, rfl, rfl, rfl, ?_, rfl, rfl, rfl⟩
  intro d hd
  simp only [Sequencer.reset, List.mem_map] at hd
  obtain ⟨_, _, rfl⟩ := hd
  exact ⟨rfl, rfl, rfl⟩

/-- C5: consuming a `DOMINO_HIT_NEXT` event linking `dominos[i]` to
`dominos[i+1]` while the Sequencer's state is `DOMINOS_FALLING`, with the
target not already fallen, marks the target fallen, copies the source
domino's angular velocity onto it, and leaves the state unchanged. -/
theorem domino_hit_next_transition (s : Sys) (i : Nat) (dfrom dto : Domino)
    (h : s.state = .DOMINOS_FALLING)
    (hf : s.dominos[i]? = some dfrom)
    (ht : s.dominos[i + 1]? = some dto)
    (hnot : dto.fallen = false) :
    (Sequencer.handle s (.DOMINO_HIT_NEXT i)).dominos[i + 1]? =
      some { dto with fallen := true,
                      angularVelocity := dfrom.angularVelocity } ∧
    (Sequencer.handle s (.DOMINO_HIT_NEXT i)).state = s.state := by
  simp [Sequencer.handle, Sequencer.guard, Sequencer.applyEvent, h, hf, ht,
    hnot, getElem?_modifyAt_self]

theorem domino_hit_next_transition_witness :
    ((sampleSys .DOMINOS_FALLING).state = .DOMINOS_FALLING ∧
     (sampleSys .DOMINOS_FALLING).dominos[0]? = some sampleDomino ∧
     (sampleSys .DOMINOS_FALLING).dominos[1]? = some sampleDomino ∧
     sampleDomino.fallen = false) ∧
    ((Sequencer.handle (sampleSys .DOMINOS_FALLING)
        (.DOMINO_HIT_NEXT 0)).dominos[1]? =
      some { sampleDomino with fallen := true,
                               angularVelocity := sampleDomino.angularVelocity } ∧
     (Sequencer.handle (sampleSys .DOMINOS_FALLING)
        (.DOMINO_HIT_NEXT 0)).state = (sampleSys .DOMINOS_FALLING).state) :=
  ⟨⟨rfl, rfl, rfl, rfl⟩,
    domino_hit_next_transition (sampleSys .DOMINOS_FALLING) 0
      sampleDomino sampleDomino rfl rfl rfl rfl⟩

/-- C6: for a fallen domino (with the nonpositive angular velocity the
controller assigns, and not already past its target), one Integrator domino
step moves the angle only toward the per-index terminal target, never
overshoots it, keeps the angular velocity nonpositive, and when the step
passes the target it clamps the angle exactly at the target and zeroes the
angular velocity; the last domino's target differs from the interior
dominoes' target. -/
theorem domino_settling_step (lastIndex idx : Nat) (dt : ℚ) (d : Domino)
    (hfall : d.fallen = true) (hw : d.angularVelocity ≤ 0) (hdt : 0 ≤ dt)
    (ha : AnimationSystem.dominoTarget lastIndex idx ≤ d.angle) :
    AnimationSystem.dominoTarget lastIndex idx ≤
      (AnimationSystem._updateDomino lastIndex idx dt d).angle ∧
    (AnimationSystem._updateDomino lastIndex idx dt d).angle ≤ d.angle ∧
    (AnimationSystem._updateDomino lastIndex idx dt d).angularVelocity ≤ 0 ∧
    (d.angle + d.angularVelocity * dt < AnimationSystem.dominoTarget lastIndex idx →
      (AnimationSystem._updateDomino lastIndex idx dt d).angle =
        AnimationSystem.dominoTarget lastIndex idx ∧
      (AnimationSystem._updateDomino lastIndex idx dt d).angularVelocity = 0) ∧
    AnimationSystem.lastTarget ≠ AnimationSystem.midTarget := by
  have hmul : d.angularVelocity * dt ≤ 0 := mul_nonpos_of_nonpos_of_nonneg hw hdt
  have hne : AnimationSystem.lastTarget ≠ AnimationSystem.midTarget := by
    norm_num [AnimationSystem.lastTarget, AnimationSystem.midTarget,
      AnimationSystem.piQ]
  have hd : AnimationSystem._updateDomino lastIndex idx dt d =
      (if d.angle + d.angularVelocity * dt <
          AnimationSystem.dominoTarget lastIndex idx
       then (⟨AnimationSystem.dominoTarget lastIndex idx, 0, true⟩ : Domino)
       else ⟨d.angle + d.angularVelocity * dt, d.angularVelocity, true⟩) := by
    cases d
    simp_all [AnimationSystem._updateDomino]
  rw [hd]
  by_cases hc :
      d.angle + d.angularVelocity * dt < AnimationSystem.dominoTarget lastIndex idx
  · rw [if_pos hc]
    exact ⟨le_refl _, ha, le_refl 0, fun _ => ⟨rfl, rfl⟩, hne⟩
  · rw [if_neg hc]
    refine ⟨le_of_not_lt hc, ?_, hw, fun hcon => absurd hcon hc, hne⟩
    show d.angle + d.angularVelocity * dt ≤ d.angle
    linarith

theorem domino_settling_step_witness :
    ((⟨0, -(3/2), true⟩ : Domino).fallen = true ∧
     (⟨0, -(3/2), true⟩ : Domino).angularVelocity ≤ 0 ∧
     (0 : ℚ) ≤ 1 ∧
     AnimationSystem.dominoTarget 9 0 ≤ (⟨0, -(3/2), true⟩ : Domino).angle) ∧
    (AnimationSystem.dominoTarget 9 0 ≤
      (AnimationSystem._updateDomino 9 0 1 ⟨0, -(3/2), true⟩).angle ∧
     (AnimationSystem._updateDomino 9 0 1 ⟨0, -(3/2), true⟩).angle ≤
       (⟨0, -(3/2), true⟩ : Domino).angle ∧
     (AnimationSystem._updateDomino 9 0 1 ⟨0, -(3/2), true⟩).angularVelocity ≤ 0 ∧
     ((⟨0, -(3/2), true⟩ : Domino).angle +
        (⟨0, -(3/2), true⟩ : Domino).angularVelocity * 1 <
          AnimationSystem.dominoTarget 9 0 →
       (AnimationSystem._updateDomino 9 0 1 ⟨0, -(3/2), true⟩).angle =
         AnimationSystem.dominoTarget 9 0 ∧
       (AnimationSystem._updateDomino 9 0 1 ⟨0, -(3/2), true⟩).angularVelocity = 0) ∧
     AnimationSystem.lastTarget ≠ AnimationSystem.midTarget) :=
  ⟨⟨rfl, by norm_num, by norm_num,
     by norm_num [AnimationSystem.dominoTarget, AnimationSystem.midTarget,
       AnimationSystem.piQ]⟩,
   domino_settling_step 9 0 1 ⟨0, -(3/2), true⟩ rfl (by norm_num) (by norm_num)
     (by norm_num [AnimationSystem.dominoTarget, AnimationSystem.midTarget,
       AnimationSystem.piQ])⟩

/-- C7: an event whose guard on the current state fails is silently dropped:
consuming it returns the state of the whole system unchanged (no ball,
domino or pendulum field is modified and the controller state is
unchanged). -/
theorem guard_miss_noop (ev : Event) (s : Sys)
    (h : Sequencer.guard ev s.state = false) :
    Sequencer.handle s ev = s := by
  simp [Sequencer.handle, h]

theorem guard_miss_noop_witness :
    Sequencer.guard .PENDULUM_HIT_BALL1 (sampleSys .IDLE).state = false ∧
    Sequencer.handle (sampleSys .IDLE) .PENDULUM_HIT_BALL1 = sampleSys .IDLE :=
  ⟨rfl, guard_miss_noop .PENDULUM_HIT_BALL1 (sampleSys .IDLE) rfl⟩

/-- C8: `CollisionSystem.update` first clears the previous frame's event
queue — the returned queue does not depend on the previous frame's entries —
and leaves the whole simulation state (every ball, domino and pendulum field
and the controller state) unchanged. -/
theorem collision_update_clears_and_reads_only
    (prevEvents prevEvents' : List Event) (o : CollisionSystem.Overlaps)
    (s : Sys) :
    CollisionSystem.update prevEvents o s =
      CollisionSystem.update prevEvents' o s ∧
    (CollisionSystem.update prevEvents o s).1 = s :=
  ⟨rfl, rfl⟩

/-- C9: on every call of the source controller's `update` while its state is
`IDLE` it runs `_startBall1` — transitioning to `BALL1_ROLLING` and
activating ball1 with velocity exactly `(2, 0, 0)` — before any event is
processed, regardless of `dt` and of the contents of the event queue; with
the empty queue these facts also hold of the final state. -/
theorem idle_autostart (dt : ℚ) (collisionEvents : List Event) (s : Sys)
    (h : s.state = .IDLE) :
    RGMController.update dt collisionEvents s =
      collisionEvents.foldl RGMController.handleEvent
        (RGMController._startBall1 s) ∧
    (RGMController._startBall1 s).state = .BALL1_ROLLING ∧
    (RGMController._startBall1 s).ball1.active = true ∧
    (RGMController._startBall1 s).ball1.velocity = ⟨2, 0, 0⟩ ∧
    (RGMController.update dt [] s).state = .BALL1_ROLLING ∧
    (RGMController.update dt [] s).ball1.active = true ∧
    (RGMController.update dt [] s).ball1.velocity = ⟨2, 0, 0⟩ := by
  simp [RGMController.update, RGMController._startBall1, h]

theorem idle_autostart_witness :
    (sampleSys .IDLE).state = .IDLE ∧
    (RGMController.update 0 [.PENDULUM_HIT_BALL1, .DOMINO_HIT_NEXT 0]
        (sampleSys .IDLE) =
      [Event.PENDULUM_HIT_BALL1, Event.DOMINO_HIT_NEXT 0].foldl
        RGMController.handleEvent (RGMController._startBall1 (sampleSys .IDLE)) ∧
     (RGMController._startBall1 (sampleSys .IDLE)).state = .BALL1_ROLLING ∧
     (RGMController._startBall1 (sampleSys .IDLE)).ball1.active = true ∧
     (RGMController._startBall1 (sampleSys .IDLE)).ball1.velocity = ⟨2, 0, 0⟩ ∧
     (RGMController.update 0 [] (sampleSys .IDLE)).state = .BALL1_ROLLING ∧
     (RGMController.update 0 [] (sampleSys .IDLE)).ball1.active = true ∧
     (RGMController.update 0 [] (sampleSys .IDLE)).ball1.velocity = ⟨2, 0, 0⟩) :=
  ⟨rfl, idle_autostart 0 [.PENDULUM_HIT_BALL1, .DOMINO_HIT_NEXT 0]
    (sampleSys .IDLE) rfl⟩

/-- C10: the Integrator selects a ball's velocity rule from the controller
state alone and applies the same `_updateBall` to both balls, so in state
`BALL1_FALLING` an active ball2 also receives the along-ramp acceleration,
and in state `BALL2_ROLLING` an active ball1 whose `position.x > 4.5` also
receives full downward gravity `(0, -9.8, 0)` scaled by `dt`. -/
theorem integrator_rule_from_state_alone (accel : V3) (sinFn : ℚ → ℚ)
    (dt : ℚ) (st : RGMState) (s : Sys) :
    (AnimationSystem.update accel sinFn dt st s).ball1 =
      AnimationSystem._updateBall accel dt st s.ball1 ∧
    (AnimationSystem.update accel sinFn dt st s).ball2 =
      AnimationSystem._updateBall accel dt st s.ball2 ∧
    (s.ball2.active = true →
      (AnimationSystem.update accel sinFn dt .BALL1_FALLING s).ball2.velocity =
        s.ball2.velocity.addScaled accel dt) ∧
    (s.ball1.active = true → s.ball1.position.x > 9/2 →
      (AnimationSystem.update accel sinFn dt .BALL2_ROLLING s).ball1.velocity =
        s.ball1.velocity.addScaled AnimationSystem.gravity dt) ∧
    AnimationSystem.gravity = ⟨0, -(49/5), 0⟩ := by
  refine ⟨rfl, rfl, ?_, ?_, rfl⟩
  · intro h2
    simp [AnimationSystem.update, AnimationSystem._updateBall, h2]
  · intro h1 hx
    simp [AnimationSystem.update, AnimationSystem._updateBall, h1, hx]

/-- Concrete store with both balls active and ball1 past the `x > 4.5`
gravity gate. -/
def sampleSysBoth : Sys :=
  { sampleSys .IDLE with
    ball1 := { position := ⟨5, 0, 0⟩, velocity := V3.zero, radius := 3/10,
               active := true }
    ball2 := { sampleBall2 with active := true } }

theorem integrator_rule_from_state_alone_witness :
    ((sampleSysBoth).ball2.active = true ∧
     (sampleSysBoth).ball1.active = true ∧
     (sampleSysBoth).ball1.position.x > 9/2) ∧
    ((AnimationSystem.update ⟨1, 1, 0⟩ (fun _ => 0) 1 .BALL1_FALLING
        sampleSysBoth).ball2.velocity =
      (sampleSysBoth).ball2.velocity.addScaled ⟨1, 1, 0⟩ 1 ∧
     (AnimationSystem.update ⟨1, 1, 0⟩ (fun _ => 0) 1 .BALL2_ROLLING
        sampleSysBoth).ball1.velocity =
      (sampleSysBoth).ball1.velocity.addScaled AnimationSystem.gravity 1) :=
  ⟨⟨rfl, rfl, by norm_num [sampleSysBoth]⟩,
   (integrator_rule_from_state_alone ⟨1, 1, 0⟩ (fun _ => 0) 1
      .BALL1_FALLING sampleSysBoth).2.2.1 rfl,
   (integrator_rule_from_state_alone ⟨1, 1, 0⟩ (fun _ => 0) 1
      .BALL2_ROLLING sampleSysBoth).2.2.2.1 rfl
      (by norm_num [sampleSysBoth])⟩

theorem sequencer_reset_initial_conditions_witness :
    (Sequencer.reset (1/2) ⟨-13, 2, 0⟩ ⟨6, 2, 0⟩
        (sampleSys .BALL2_ROLLING)).ball1.velocity = V3.zero ∧
    (Sequencer.reset (1/2) ⟨-13, 2, 0⟩ ⟨6, 2, 0⟩
        (sampleSys .BALL2_ROLLING)).ball1.active = false ∧
    (Sequencer.reset (1/2) ⟨-13, 2, 0⟩ ⟨6, 2, 0⟩
        (sampleSys .BALL2_ROLLING)).ball2.velocity = V3.zero ∧
    (Sequencer.reset (1/2) ⟨-13, 2, 0⟩ ⟨6, 2, 0⟩
        (sampleSys .BALL2_ROLLING)).ball2.active = false ∧
    (∀ d ∈ (Sequencer.reset (1/2) ⟨-13, 2, 0⟩ ⟨6, 2, 0⟩
        (sampleSys .BALL2_ROLLING)).dominos,
      d.angle = 0 ∧ d.angularVelocity = 0 ∧ d.fallen = false) ∧
    (Sequencer.reset (1/2) ⟨-13, 2, 0⟩ ⟨6, 2, 0⟩
        (sampleSys .BALL2_ROLLING)).pendulum.angle = 1/2 ∧
    (Sequencer.reset (1/2) ⟨-13, 2, 0⟩ ⟨6, 2, 0⟩
        (sampleSys .BALL2_ROLLING)).pendulum.active = true ∧
    (Sequencer.reset (1/2) ⟨-13, 2, 0⟩ ⟨6, 2, 0⟩
        (sampleSys .BALL2_ROLLING)).state = .PENDULUM_SWINGING :=
  sequencer_reset_initial_conditions (1/2) ⟨-13, 2, 0⟩ ⟨6, 2, 0⟩
    (sampleSys .BALL2_ROLLING)
